import Mathlib

/-!
Verification of the prescriptive-analysis script (`main.py`): six PuLP
linear/integer optimization scenarios over the medical-insurance dataset.
Each scenario's decision variables, objective and constraints are embedded
shallowly: binary variables become `Bool`, integer variables `ℤ`/`ℕ`,
continuous variables `ℚ`, and the numeric coefficients of the source become
exact rationals. The dataset itself is an external download, so dataset-derived
quantities (per-record costs, demand totals) are parameters of the embedded
models.
-/

namespace AnalisePrescritiva

/-- The 0/1 rational value of a binary decision variable. -/
def ind (b : Bool) : ℚ := if b then 1 else 0

/-- The 0/1 natural value of a binary decision variable (for counting). -/
def bi (b : Bool) : ℕ := if b then 1 else 0

/-! Consulta 1 (`main.py` lines 22-34): client selection, one binary
variable `x_i` per record, maximize `Σ receita_i · x_i` with
`receita_i = 5000` (lines 18, 28), subject to the average-cost constraint
`Σ custo_i · x_i ≤ 15000 · Σ x_i` (line 31). -/

/-- Objective of `prob`: total revenue `Σ 5000 · x_i` (line 28). -/
def selReceita {n : ℕ} (x : Fin n → Bool) : ℚ := ∑ i, 5000 * ind (x i)

/-- Left side of the average-cost constraint of `prob`: `Σ custo_i · x_i` (line 31). -/
def selCusto {n : ℕ} (custo : Fin n → ℚ) (x : Fin n → Bool) : ℚ :=
  ∑ i, custo i * ind (x i)

/-- Feasibility for `prob`: `Σ custo_i · x_i ≤ 15000 · Σ x_i` (line 31);
the binary domain of each `x_i` is carried by `Bool`. -/
def selFeasible {n : ℕ} (custo : Fin n → ℚ) (x : Fin n → Bool) : Prop :=
  selCusto custo x ≤ 15000 * ∑ i, ind (x i)

/-- The three-record cost vector [10000, 16000, 20000] of the spec's
selection scenario. -/
def custo3 : Fin 3 → ℚ
  | 0 => 10000
  | 1 => 16000
  | 2 => 20000

/-- The selection claimed optimal by the spec: include the 10000- and
16000-cost records, exclude the 20000-cost one. -/
def selSpec : Fin 3 → Bool
  | 0 => true
  | 1 => true
  | 2 => false

/-- The rival selection: include the 10000- and 20000-cost records. -/
def selAlt : Fin 3 → Bool
  | 0 => true
  | 1 => false
  | 2 => true

/-! Consulta 2 (`main.py` lines 55-78): regional portfolio, one integer
variable `y_r ≥ 0` per region (Norte, Sul, Centro), minimize
`Σ custo_r · y_r`, subject to `Σ y_r ≥ 50` (line 67), `y_r ≤ 0.3 · Σ y_r`
(line 72) and `y_r ≥ 10` (line 76). -/

/-- Total clients across the three regions, `Σ y_r`. -/
def totalRegioes (yN yS yC : ℤ) : ℤ := yN + yS + yC

/-- The three ratio constraints of `prob2` (line 72): each region at most
30 percent of the total. -/
def ratioConstraints (yN yS yC : ℤ) : Prop :=
  (yN : ℚ) ≤ 3 / 10 * (totalRegioes yN yS yC : ℚ) ∧
  (yS : ℚ) ≤ 3 / 10 * (totalRegioes yN yS yC : ℚ) ∧
  (yC : ℚ) ≤ 3 / 10 * (totalRegioes yN yS yC : ℚ)

/-- Feasibility for `prob2`: nonnegativity (line 59), at least 50 total
(line 67), the ratio constraints (line 72), at least 10 per region (line 76). -/
def prob2Feasible (yN yS yC : ℤ) : Prop :=
  0 ≤ yN ∧ 0 ≤ yS ∧ 0 ≤ yC ∧
  50 ≤ totalRegioes yN yS yC ∧
  ratioConstraints yN yS yC ∧
  10 ≤ yN ∧ 10 ≤ yS ∧ 10 ≤ yC

/-- Solve statuses of the solver contract (spec section 3, Result). -/
inductive SolStatus where
  | NotSolved : SolStatus
  | Optimal : SolStatus
  | Infeasible : SolStatus
  | Unbounded : SolStatus

/-- A solve result for `prob2` as the reporting code reads it: the status,
the value of each region variable (`y[r].value()`, `None` when the solver
assigned nothing) and the objective value (`pulp.value(prob2.objective)`). -/
structure Prob2Result where
  status : SolStatus
  valNorte : Option ℤ
  valSul : Option ℤ
  valCentro : Option ℤ
  objValue : Option ℚ

/-- The report of consulta 2 (`main.py` lines 80-83): it unconditionally
prints `int(y[r].value())` for each region and the formatted objective,
with no branch on the solve status. `int(None)` and formatting `None`
raise `TypeError`, modeled by `none`; a successful print of the numbers is
`some` of them. The status field is never inspected. -/
def consulta2Report (res : Prob2Result) : Option (ℤ × ℤ × ℤ × ℚ) :=
  match res.valNorte, res.valSul, res.valCentro, res.objValue with
  | some n, some s, some c, some o => some (n, s, c, o)
  | _, _, _, _ => none

/-! Consulta 3 (`main.py` lines 92-124): hospital capacity. Demands are
derived per record (lines 92-94), capacities are nonnegative integer
variables, the cost `10000·e + 15000·s + 2000·c` is minimized subject to
meeting each demand total (lines 115-117) and the budget 2000000
(lines 120-122). -/

/-- A dataset record, restricted to the attributes consulta 3 reads. -/
structure Cliente where
  age : ℤ
  bmi : ℚ
  smoker : Bool

/-- Derived demand `demanda_emergencia` (line 92): `age > 50` or smoker. -/
def demandaEmergencia (r : Cliente) : ℕ := if 50 < r.age ∨ r.smoker then 1 else 0

/-- Derived demand `demanda_cirurgia` (line 93): `bmi > 35` or `age > 60`. -/
def demandaCirurgia (r : Cliente) : ℕ := if 35 < r.bmi ∨ 60 < r.age then 1 else 0

/-- Derived demand `demanda_consulta` (line 94): every record counts 1. -/
def demandaConsulta (_ : Cliente) : ℕ := 1

/-- Dataset total of the emergency demand (line 115). -/
def totalEmergencia (df : List Cliente) : ℕ := (df.map demandaEmergencia).sum

/-- Dataset total of the surgery demand (line 116). -/
def totalCirurgia (df : List Cliente) : ℕ := (df.map demandaCirurgia).sum

/-- Dataset total of the consultation demand (line 117). -/
def totalConsulta (df : List Cliente) : ℕ := (df.map demandaConsulta).sum

/-- Capacity cost, the objective of `prob3` (lines 110-112) and the left
side of its budget constraint (lines 120-122). -/
def capCost (e s c : ℕ) : ℕ := 10000 * e + 15000 * s + 2000 * c

/-- Feasibility for `prob3` with demand totals `dE, dS, dC`: capacities
(nonnegative by `ℕ`) meet each demand and the cost is within budget. -/
def prob3Feasible (dE dS dC e s c : ℕ) : Prop :=
  dE ≤ e ∧ dS ≤ s ∧ dC ≤ c ∧ capCost e s c ≤ 2000000

/-! Consulta 5 (`main.py` lines 194-220): marketing budget, one continuous
variable `orcamento_c ≥ 0` per channel (Digital, TV, Radio, Impresso),
maximize `Σ (orcamento_c / custo_por_lead_c) · conversao_c`, subject to
total at most 500000 (line 209), each at least 20000 (line 213) and each
at most 40 percent of the total (line 218). -/

/-- Objective of `prob5` (line 205), with the source's channel data of
lines 195-196 as exact rationals. -/
def mktObjective (d t r i : ℚ) : ℚ :=
  d / 50 * (15 / 100) + t / 200 * (8 / 100) + r / 75 * (10 / 100) + i / 100 * (5 / 100)

/-- The total marketing budget `Σ orcamento_c` (lines 209, 216). -/
def mktTotal (d t r i : ℚ) : ℚ := d + t + r + i

/-- Feasibility for `prob5`: nonnegativity (line 202), total at most
500000 (line 209), at least 20000 per channel (line 213), each channel at
most 40 percent of the total (line 218). -/
def mktFeasible (d t r i : ℚ) : Prop :=
  0 ≤ d ∧ 0 ≤ t ∧ 0 ≤ r ∧ 0 ≤ i ∧
  mktTotal d t r i ≤ 500000 ∧
  20000 ≤ d ∧ 20000 ≤ t ∧ 20000 ≤ r ∧ 20000 ≤ i ∧
  d ≤ 2 / 5 * mktTotal d t r i ∧ t ≤ 2 / 5 * mktTotal d t r i ∧
  r ≤ 2 / 5 * mktTotal d t r i ∧ i ≤ 2 / 5 * mktTotal d t r i

/-! Consulta 6 (`main.py` lines 243-312): facility location. Binary `z_j`
per center (line 267), binary `w_{i,j}` per client-center pair (line 272),
minimize total assigned distance plus `10000` per open center (lines
274-279), subject to exactly one center per client (line 284),
`w_{i,j} ≤ z_j` (line 289), and between 2 and 4 open centers
(lines 292, 295). -/

/-- Feasibility for `prob6` over 50 clients and 5 centers: each client
assigned to exactly one center (line 284), assignment only to open centers
(line 289), and between 2 and 4 centers open (lines 292 and 295). -/
def prob6Feasible (w : Fin 50 → Fin 5 → Bool) (z : Fin 5 → Bool) : Prop :=
  (∀ i, (∑ j, bi (w i j)) = 1) ∧
  (∀ i j, bi (w i j) ≤ bi (z j)) ∧
  2 ≤ ∑ j, bi (z j) ∧
  (∑ j, bi (z j)) ≤ 4

/-- Number of open centers, `Σ z_j`. -/
def openCenters (z : Fin 5 → Bool) : ℕ := ∑ j, bi (z j)

/-- Objective of `prob6` (lines 274-279): total assigned distance plus the
fixed cost 10000 per open center; the distances `d` are computed from the
randomly generated coordinates, so they are a parameter here. -/
def prob6Cost (d : Fin 50 → Fin 5 → ℚ) (w : Fin 50 → Fin 5 → Bool)
    (z : Fin 5 → Bool) : ℚ :=
  (∑ i, ∑ j, d i j * ind (w i j)) + ∑ j, 10000 * ind (z j)

/-- All-zero distances, a concrete instance of the distance parameter. -/
def d0 : Fin 50 → Fin 5 → ℚ := fun _ _ => 0

/-- Concrete assignment: every client served by center 0. -/
def w0 : Fin 50 → Fin 5 → Bool := fun _ j => j == 0

/-- Concrete opening decision: centers 0 and 1 open. -/
def z0 : Fin 5 → Bool := fun j => j == 0 || j == 1

/-- A built consulta-6 model, as far as its construction depends on the
global random generator: the generated coordinates and the (deterministic)
variable names of lines 250-251, 267 and 272. -/
structure RedeModel where
  centros : List (ℚ × ℚ)
  clientesCoords : List (ℚ × ℚ)
  zNames : List String
  wNames : List String

/-- Draw `n` coordinate pairs from a pseudo-random generator with state
type `σ` and draw function `next` (two draws of `random.uniform(0, 100)`
per point, lines 250-251). -/
def drawCoords {σ : Type} (next : σ → ℚ × σ) : ℕ → σ → List (ℚ × ℚ) × σ
  | 0, s => ([], s)
  | Nat.succ n, s =>
    let p1 := next s
    let p2 := next p1.2
    let rest := drawCoords next n p2.2
    ((p1.1, p2.1) :: rest.1, rest.2)

/-- The consulta-6 model construction (lines 243-272): `random.seed(42)`
replaces whatever global generator state `s0` was in effect with the state
`seedFn 42` determined by the seed, then 5 center and 50 client coordinate
pairs are drawn and the variables are named deterministically from their
indices. -/
def buildRedeAtendimento {σ : Type} (seedFn : ℕ → σ) (next : σ → ℚ × σ)
    (_s0 : σ) : RedeModel :=
  let s := seedFn 42
  let cs := drawCoords next 5 s
  let cl := drawCoords next 50 cs.2
  { centros := cs.1
    clientesCoords := cl.1
    zNames := (List.range 5).map (fun j => "centro_aberto_" ++ toString j)
    wNames := ((List.range 50).map (fun i =>
        (List.range 5).map (fun j =>
          "atende_" ++ toString i ++ "_" ++ toString j))).flatten }

/-! The Variable Factory. `main.py` creates its decision variables through
the external library's constructor; the factory's contract is given by the
spec (sections 3 and 4.3). -/

/-- Domain kinds of decision variables (spec section 3, Variable). -/
inductive VarKind where
  | Continuous : VarKind
  | Integer : VarKind
  | Binary : VarKind

/-- Variable Factory errors (spec section 4.3). -/
inductive VarError where
  | InvalidBounds : VarError
  | DuplicateVariable : VarError

/-- A created decision variable: name, kind, lower bound, optional upper
bound (spec section 3, Variable). -/
structure VarDef where
  name : String
  kind : VarKind
  low : ℚ
  up : Option ℚ

/-- Modelled from the spec: the Variable Factory's bound defaulting
(spec section 3, Variable: lower bound default 0; upper bound default
unbounded, or 1 for Binary). The factory implementation itself is the
external library, not part of `src/main.py`. -/
def defaultUpper (kind : VarKind) (up : Option ℚ) : Option ℚ :=
  match up, kind with
  | some h, _ => some h
  | none, VarKind.Binary => some 1
  | none, _ => none

/-- Modelled from the spec: the Variable Factory's `variable(name, kind,
lower=0, upper=None)` (spec section 4.3), whose implementation is the
external library and not part of `src/main.py`. Per the spec it fails with
`InvalidBounds` if lower exceeds upper (both finite) or if the kind is
Binary and the bounds after defaulting are not exactly 0 and 1. -/
def mkVariable (name : String) (kind : VarKind) (low up : Option ℚ) :
    Except VarError VarDef :=
  let lo := low.getD 0
  match kind, defaultUpper kind up with
  | VarKind.Binary, some h =>
      if lo = 0 ∧ h = 1 then Except.ok ⟨name, VarKind.Binary, lo, some h⟩
      else Except.error VarError.InvalidBounds
  | VarKind.Binary, none => Except.error VarError.InvalidBounds
  | k, some h =>
      if lo ≤ h then Except.ok ⟨name, k, lo, some h⟩
      else Except.error VarError.InvalidBounds
  | k, none => Except.ok ⟨name, k, lo, none⟩

/-- The binary variables of `prob` (line 23): one per record index, with
the explicit bounds `lowBound=0, upBound=1`. -/
def prob1Vars (clientes : List ℕ) : List (Except VarError VarDef) :=
  clientes.map (fun i =>
    mkVariable ("x_" ++ toString i) VarKind.Binary (some 0) (some 1))

/-- The binary center-opening variables of `prob6` (line 267), created
with no explicit bounds. -/
def prob6ZVars : List (Except VarError VarDef) :=
  (List.range 5).map (fun j =>
    mkVariable ("centro_aberto_" ++ toString j) VarKind.Binary none none)

/-- The binary assignment variables of `prob6` (lines 270-272), created
with no explicit bounds. -/
def prob6WVars : List (Except VarError VarDef) :=
  ((List.range 50).map (fun i => (List.range 5).map (fun j =>
    mkVariable ("atende_" ++ toString i ++ "_" ++ toString j)
      VarKind.Binary none none))).flatten

/-! The Expression Algebra. `main.py` builds its linear expressions through
the external library (`pulp.lpSum`, e.g. lines 28, 31); the algebra's
contract is given by the spec (sections 4.2 and 8). -/

/-- Modelled from the spec: a linear expression of the Expression Algebra
(spec section 3, Expression), an ordered list of (variable, coefficient)
terms plus a constant; the algebra's implementation is the external
library and not part of `src/main.py`. -/
structure LinExpr where
  terms : List (String × ℚ)
  const : ℚ

/-- Addition of linear expressions: terms are concatenated (the order of
terms is irrelevant to the normalized value) and constants added. -/
def addExpr (a b : LinExpr) : LinExpr := ⟨a.terms ++ b.terms, a.const + b.const⟩

/-- The zero expression. -/
def zeroExpr : LinExpr := ⟨[], 0⟩

/-- Modelled from the spec: `sum(expressions)` of the Expression Algebra
(spec section 4.2, the embedding of `pulp.lpSum` in lines 28-31), folding
expression addition over the list. -/
def lpSum (es : List LinExpr) : LinExpr := es.foldl addExpr zeroExpr

/-- The normalized coefficient of variable `v` in an expression: the sum
of the coefficients of all terms naming `v`. -/
def coeffOf (e : LinExpr) (v : String) : ℚ :=
  ((e.terms.filter (fun t => t.1 = v)).map Prod.snd).sum

/-- Equality of expressions by normalized coefficient mapping plus
constant (spec section 8). -/
def exprEquiv (a b : LinExpr) : Prop :=
  (∀ v, coeffOf a v = coeffOf b v) ∧ a.const = b.const

/-- A concrete expression, 2·x + 1. -/
def exprX : LinExpr := ⟨[("x", 2)], 1⟩

/-- A concrete expression, 3·y + x. -/
def exprY : LinExpr := ⟨[("y", 3), ("x", 1)], 0⟩

/-! The dataset-schema behavior of the whole script: which original
dataset columns `main.py` reads, in program order, interleaved with the
model constructions. -/

/-- One step of the script: reading an original dataset column, or
building (and solving) one of the six models. -/
inductive ScriptStep where
  | readCol : String → ScriptStep
  | buildModel : ScriptStep

/-- The column reads and model constructions of `main.py` in program
order: `charges` (line 19), prob (lines 22-34), `bmi` (line 52), prob2
(lines 55-78), `age` and `smoker` (line 92), `bmi` and `age` (line 93),
prob3 (lines 97-124), `age` (line 140), `charges` (line 153), prob4
(lines 143-172), prob5 (lines 199-220, no dataset reads), prob6
(lines 263-297, no dataset reads). -/
def mainScript : List ScriptStep :=
  [ScriptStep.readCol "charges", ScriptStep.buildModel,
   ScriptStep.readCol "bmi", ScriptStep.buildModel,
   ScriptStep.readCol "age", ScriptStep.readCol "smoker",
   ScriptStep.readCol "bmi", ScriptStep.readCol "age", ScriptStep.buildModel,
   ScriptStep.readCol "age", ScriptStep.readCol "charges", ScriptStep.buildModel,
   ScriptStep.buildModel, ScriptStep.buildModel]

/-- Run script steps over a table with the given `present` columns,
counting completed models; accessing a missing column aborts the run at
that point (pandas raises `KeyError` on a missing column), returning the
number of models already completed and `true` for the abort. -/
def runSteps (present : List String) : List ScriptStep → ℕ → ℕ × Bool
  | [], acc => (acc, false)
  | ScriptStep.readCol c :: rest, acc =>
      if present.contains c then runSteps present rest acc else (acc, true)
  | ScriptStep.buildModel :: rest, acc => runSteps present rest (acc + 1)

/-- Run the whole of `main.py` over a table with the given columns. -/
def runScript (present : List String) : ℕ × Bool := runSteps present mainScript 0

/-- The required dataset fields of the spec (section 6). -/
def requiredFields : List String :=
  ["age", "sex", "bmi", "children", "smoker", "region", "charges"]

/-- A concrete two-record dataset: a 55-year-old non-smoker with bmi 30,
and a 20-year-old smoker with bmi 40. -/
def df0 : List Cliente := [⟨55, 30, false⟩, ⟨20, 40, true⟩]

/-! Theorems. -/

/-- On the three-record instance, every feasible selection has revenue at
most 10000. -/
theorem sel3_bound :
    ∀ x : Fin 3 → Bool, selFeasible custo3 x → selReceita x ≤ 10000 := by
  intro x hx
  unfold selFeasible selCusto at hx
  unfold selReceita
  simp only [Fin.sum_univ_three] at hx ⊢
  cases hx0 : x 0 <;> cases hx1 : x 1 <;> cases hx2 : x 2 <;>
    simp only [hx0, hx1, hx2, custo3, ind, if_true, if_false] at hx ⊢ <;>
    norm_num at hx ⊢

/-- Claim C1, counterexample: the selection that includes the 10000- and
20000-cost records (and excludes the 16000 one) is also feasible
(cost 30000 equals the cap 15000 times 2) and also attains the maximal
objective 10000, so it is an optimal selection that includes the record
costing 20000 — refuting the claim that the optimal selection of this
instance includes the 16000-cost record and excludes the 20000-cost one. -/
theorem C1_counterexample :
    selFeasible custo3 selAlt ∧
    (∀ x : Fin 3 → Bool, selFeasible custo3 x → selReceita x ≤ selReceita selAlt) ∧
    selReceita selAlt = 10000 ∧
    selAlt 2 = true ∧ selAlt 1 = false := by
  have hval : selReceita selAlt = 10000 := by
    unfold selReceita
    simp only [Fin.sum_univ_three, selAlt, ind, if_true, if_false]
    norm_num
  refine ⟨?_, ?_, hval, rfl, rfl⟩
  · unfold selFeasible selCusto
    simp only [Fin.sum_univ_three, selAlt, custo3, ind, if_true, if_false]
    norm_num
  · intro x hx
    rw [hval]
    exact sel3_bound x hx

/-- Claim C1, amended: the selection including the 10000- and 16000-cost
records and excluding the 20000-cost one is feasible and attains the
objective value 10000, which is the maximum over all feasible selections —
it is an (not the unique) optimal selection of this instance. -/
theorem C1_selection_optimal :
    selFeasible custo3 selSpec ∧
    selReceita selSpec = 10000 ∧
    (∀ x : Fin 3 → Bool, selFeasible custo3 x → selReceita x ≤ 10000) := by
  refine ⟨?_, ?_, sel3_bound⟩
  · unfold selFeasible selCusto
    simp only [Fin.sum_univ_three, selSpec, custo3, ind, if_true, if_false]
    norm_num
  · unfold selReceita
    simp only [Fin.sum_univ_three, selSpec, ind, if_true, if_false]
    norm_num

/-- The three ratio constraints of consulta 2 force the total to be
nonpositive. -/
theorem ratio_total_nonpos :
    ∀ yN yS yC : ℤ, ratioConstraints yN yS yC → totalRegioes yN yS yC ≤ 0 := by
  intro yN yS yC h
  obtain ⟨h1, h2, h3⟩ := h
  have hq : (totalRegioes yN yS yC : ℚ) ≤ 0 := by
    unfold totalRegioes at h1 h2 h3 ⊢
    push_cast at h1 h2 h3 ⊢
    linarith
  exact_mod_cast hq

/-- The regional-portfolio model has no feasible point. -/
theorem prob2_empty : ∀ yN yS yC : ℤ, ¬ prob2Feasible yN yS yC := by
  intro yN yS yC h
  obtain ⟨-, -, -, h50, hr, -, -, -⟩ := h
  have := ratio_total_nonpos yN yS yC hr
  omega

/-- Claim C2: the regional-portfolio model is infeasible — the three
ratio constraints alone force the total to be at most 0, which contradicts
the at-least-50-total constraint, so no assignment of the three integer
region variables is feasible; consequently any solve status that is sound
for this model (Optimal only when a feasible point exists) is never
Optimal. -/
theorem C2_portfolio_infeasible :
    (∀ yN yS yC : ℤ, ratioConstraints yN yS yC → totalRegioes yN yS yC ≤ 0) ∧
    (∀ yN yS yC : ℤ, ¬ prob2Feasible yN yS yC) ∧
    (∀ st : SolStatus,
      (st = SolStatus.Optimal → ∃ yN yS yC : ℤ, prob2Feasible yN yS yC) →
      st ≠ SolStatus.Optimal) := by
  refine ⟨ratio_total_nonpos, prob2_empty, ?_⟩
  intro st hsound heq
  obtain ⟨yN, yS, yC, hfeas⟩ := hsound heq
  exact prob2_empty yN yS yC hfeas

/-- Witness for claim C2 at concrete inputs: the ratio constraints hold at
the all-zero point and there force the total to be nonpositive, and the
point (17, 17, 16) is infeasible. -/
theorem C2_witness :
    totalRegioes 0 0 0 ≤ 0 ∧ ¬ prob2Feasible 17 17 16 := by
  constructor
  · exact C2_portfolio_infeasible.1 0 0 0
      (by unfold ratioConstraints totalRegioes; norm_num)
  · exact C2_portfolio_infeasible.2.1 17 17 16

/-- Claim C3: the consulta-2 report (lines 80-83) does not branch on the
solve status — its output is unchanged when the status field is replaced —
and on the infeasible outcome, where the solver assigned no values, it
produces no rendered output at all (`int(None)` raises `TypeError`) rather
than a no-solution message; and the regional-portfolio model is indeed
infeasible, so this outcome is the one actually reached. -/
theorem C3_report_ignores_status :
    (∀ (res : Prob2Result) (st : SolStatus),
      consulta2Report res =
        consulta2Report ⟨st, res.valNorte, res.valSul, res.valCentro, res.objValue⟩) ∧
    consulta2Report ⟨SolStatus.Infeasible, none, none, none, none⟩ = none ∧
    (∀ yN yS yC : ℤ, ¬ prob2Feasible yN yS yC) := by
  exact ⟨fun res st => rfl, rfl, prob2_empty⟩

/-- Claim C9: writing E, S, C for the dataset totals of the derived
demands, if the cost of meeting the demands exactly fits the 2000000
budget then the hospital-capacity model is feasible and the demand totals
themselves are its unique optimal solution, with optimal cost
`10000·E + 15000·S + 2000·C`; otherwise the model is infeasible. -/
theorem C9_capacity (df : List Cliente) :
    (capCost (totalEmergencia df) (totalCirurgia df) (totalConsulta df) ≤ 2000000 →
      prob3Feasible (totalEmergencia df) (totalCirurgia df) (totalConsulta df)
        (totalEmergencia df) (totalCirurgia df) (totalConsulta df) ∧
      (∀ e s c : ℕ,
        prob3Feasible (totalEmergencia df) (totalCirurgia df) (totalConsulta df) e s c →
        capCost (totalEmergencia df) (totalCirurgia df) (totalConsulta df) ≤ capCost e s c ∧
        (capCost e s c = capCost (totalEmergencia df) (totalCirurgia df) (totalConsulta df) →
          e = totalEmergencia df ∧ s = totalCirurgia df ∧ c = totalConsulta df))) ∧
    (2000000 < capCost (totalEmergencia df) (totalCirurgia df) (totalConsulta df) →
      ∀ e s c : ℕ,
        ¬ prob3Feasible (totalEmergencia df) (totalCirurgia df) (totalConsulta df) e s c) := by
  constructor
  · intro h
    refine ⟨⟨le_refl _, le_refl _, le_refl _, h⟩, ?_⟩
    intro e s c hf
    obtain ⟨h1, h2, h3, h4⟩ := hf
    unfold capCost at *
    refine ⟨by omega, fun heq => ⟨by omega, by omega, by omega⟩⟩
  · intro h e s c hf
    obtain ⟨h1, h2, h3, h4⟩ := hf
    unfold capCost at *
    omega

/-- Witness for claim C9 at the concrete two-record dataset `df0`: its
demand cost is within budget and the demand totals are feasible
capacities. -/
theorem C9_witness :
    capCost (totalEmergencia df0) (totalCirurgia df0) (totalConsulta df0) ≤ 2000000 ∧
    prob3Feasible (totalEmergencia df0) (totalCirurgia df0) (totalConsulta df0)
      (totalEmergencia df0) (totalCirurgia df0) (totalConsulta df0) := by
  have h : capCost (totalEmergencia df0) (totalCirurgia df0) (totalConsulta df0) ≤ 2000000 := by
    norm_num [capCost, totalEmergencia, totalCirurgia, totalConsulta, df0,
      demandaEmergencia, demandaCirurgia, demandaConsulta]
  exact ⟨h, ((C9_capacity df0).1 h).1⟩

/-- Claim C10: the marketing-budget model has the unique optimal solution
Digital = 200000, TV = 20000, Radio = 200000, Impresso = 80000, with
optimal objective value 2744/3 new clients under the exact rational
coefficients. -/
theorem C10_marketing :
    mktFeasible 200000 20000 200000 80000 ∧
    mktObjective 200000 20000 200000 80000 = 2744 / 3 ∧
    (∀ d t r i : ℚ, mktFeasible d t r i →
      mktObjective d t r i ≤ 2744 / 3 ∧
      (mktObjective d t r i = 2744 / 3 →
        d = 200000 ∧ t = 20000 ∧ r = 200000 ∧ i = 80000)) := by
  refine ⟨?_, ?_, ?_⟩
  · unfold mktFeasible mktTotal
    norm_num
  · unfold mktObjective
    norm_num
  · intro d t r i hf
    obtain ⟨hd0, ht0, hr0, hi0, hT, hd2, ht2, hr2, hi2, hdf, htf, hrf, hif⟩ := hf
    unfold mktTotal at hT hdf htf hrf hif
    have hobj : mktObjective d t r i =
        3 / 1000 * d + 1 / 2500 * t + 1 / 750 * r + 1 / 2000 * i := by
      unfold mktObjective
      ring
    constructor
    · rw [hobj]
      linarith
    · intro heq
      rw [hobj] at heq
      refine ⟨by linarith, by linarith, by linarith, by linarith⟩

/-- Witness for claim C10 at the concrete feasible split of 100000 per
channel: it is feasible and its objective is at most the optimum 2744/3. -/
theorem C10_witness :
    mktFeasible 100000 100000 100000 100000 ∧
    mktObjective 100000 100000 100000 100000 ≤ 2744 / 3 := by
  have hf : mktFeasible 100000 100000 100000 100000 := by
    unfold mktFeasible mktTotal
    norm_num
  exact ⟨hf, (C10_marketing.2.2 100000 100000 100000 100000 hf).1⟩

/-- The 0/1 rational value of a binary variable is nonnegative. -/
theorem ind_nonneg (b : Bool) : 0 ≤ ind b := by
  cases b <;> simp [ind]

/-- The rational and natural 0/1 values of a binary variable agree. -/
theorem ind_eq_bi (b : Bool) : ind b = (bi b : ℚ) := by
  cases b <;> simp [ind, bi]

/-- Claim C4: every feasible solution of the facility-location model
assigns each of the 50 clients to exactly one of the 5 centers, assigns
clients only to open centers, opens between 2 and 4 centers, and — for
any nonnegative distances — pays at least the two fixed costs, i.e. its
objective is at least 20000. -/
theorem C4_rede (d : Fin 50 → Fin 5 → ℚ) (w : Fin 50 → Fin 5 → Bool)
    (z : Fin 5 → Bool) (hd : ∀ i j, 0 ≤ d i j) (hf : prob6Feasible w z) :
    (∀ i, (∑ j, bi (w i j)) = 1) ∧ (∀ i j, bi (w i j) ≤ bi (z j)) ∧
    2 ≤ openCenters z ∧ openCenters z ≤ 4 ∧ 20000 ≤ prob6Cost d w z := by
  obtain ⟨h1, h2, h3, h4⟩ := hf
  refine ⟨h1, h2, h3, h4, ?_⟩
  unfold prob6Cost
  have hpos : (0 : ℚ) ≤ ∑ i, ∑ j, d i j * ind (w i j) :=
    Finset.sum_nonneg fun i _ => Finset.sum_nonneg fun j _ =>
      mul_nonneg (hd i j) (ind_nonneg _)
  have hz : (∑ j, 10000 * ind (z j)) = 10000 * ((openCenters z : ℕ) : ℚ) := by
    unfold openCenters
    push_cast
    rw [Finset.mul_sum]
    exact Finset.sum_congr rfl fun j _ => by rw [ind_eq_bi]
  have hoc : (2 : ℚ) ≤ ((openCenters z : ℕ) : ℚ) := by
    exact_mod_cast h3
  rw [hz]
  linarith

/-- Witness for claim C4 at the concrete point: all clients assigned to
center 0, centers 0 and 1 open, all-zero distances. -/
theorem C4_witness :
    prob6Feasible w0 z0 ∧ 2 ≤ openCenters z0 ∧ 20000 ≤ prob6Cost d0 w0 z0 := by
  have hf : prob6Feasible w0 z0 := by
    unfold prob6Feasible
    exact ⟨by decide, by decide, by decide, by decide⟩
  have h := C4_rede d0 w0 z0 (fun _ _ => le_refl 0) hf
  exact ⟨hf, h.2.2.1, h.2.2.2.2⟩

/-- Claim C8: the consulta-6 scenario builder is deterministic — because
`random.seed(42)` fixes the generator state, the built model (coordinates
and variable names) does not depend on the pre-existing generator state,
so two runs build identical models and any deterministic solver returns
identical results on them. -/
theorem C8_idempotent {σ : Type} (seedFn : ℕ → σ) (next : σ → ℚ × σ)
    (s0 s0' : σ) (solveFn : RedeModel → Option ℚ) :
    buildRedeAtendimento seedFn next s0 = buildRedeAtendimento seedFn next s0' ∧
    solveFn (buildRedeAtendimento seedFn next s0) =
      solveFn (buildRedeAtendimento seedFn next s0') :=
  ⟨rfl, rfl⟩

/-- Witness for claim C8 at a concrete generator: two builds from distinct
initial states coincide. -/
theorem C8_witness :
    buildRedeAtendimento (fun _ => (0 : ℕ)) (fun s => ((0 : ℚ), s)) 7 =
      buildRedeAtendimento (fun _ => (0 : ℕ)) (fun s => ((0 : ℚ), s)) 99 :=
  (C8_idempotent (fun _ => (0 : ℕ)) (fun s => ((0 : ℚ), s)) 7 99 (fun _ => none)).1

/-- A Binary variable created with no explicit bounds defaults to bounds
0 and 1. -/
theorem mkVariable_binary_default (name : String) :
    mkVariable name VarKind.Binary none none =
      Except.ok ⟨name, VarKind.Binary, 0, some 1⟩ := by
  simp [mkVariable, defaultUpper]

/-- A Binary variable created with the explicit bounds 0 and 1 succeeds
with those bounds. -/
theorem mkVariable_binary_01 (name : String) :
    mkVariable name VarKind.Binary (some 0) (some 1) =
      Except.ok ⟨name, VarKind.Binary, 0, some 1⟩ := by
  simp [mkVariable, defaultUpper]

/-- Claim C5: creating a Binary variable with explicit bounds other than
0 and 1 fails with `InvalidBounds` (both with an explicit upper bound and
with the defaulted one); every successfully created Binary variable has
bounds exactly 0 and 1; and in particular every Binary variable of the
models built by the script (the selection variables of line 23 and the
facility variables of lines 267 and 270-272) has bounds exactly 0 and 1. -/
theorem C5_binary_bounds :
    (∀ (name : String) (lo hi : ℚ), ¬ (lo = 0 ∧ hi = 1) →
      mkVariable name VarKind.Binary (some lo) (some hi) =
        Except.error VarError.InvalidBounds) ∧
    (∀ (name : String) (lo : ℚ), lo ≠ 0 →
      mkVariable name VarKind.Binary (some lo) none =
        Except.error VarError.InvalidBounds) ∧
    (∀ (name : String) (low up : Option ℚ) (v : VarDef),
      mkVariable name VarKind.Binary low up = Except.ok v →
      v.low = 0 ∧ v.up = some 1) ∧
    (∀ clientes : List ℕ, ∀ res ∈ prob1Vars clientes,
      ∃ v : VarDef, res = Except.ok v ∧ v.low = 0 ∧ v.up = some 1) ∧
    (∀ res ∈ prob6ZVars, ∃ v : VarDef, res = Except.ok v ∧ v.low = 0 ∧ v.up = some 1) ∧
    (∀ res ∈ prob6WVars, ∃ v : VarDef, res = Except.ok v ∧ v.low = 0 ∧ v.up = some 1) := by
  refine ⟨?_, ?_, ?_, ?_, ?_, ?_⟩
  · intro name lo hi hne
    simp only [mkVariable, defaultUpper, Option.getD_some]
    rw [if_neg hne]
  · intro name lo hne
    simp only [mkVariable, defaultUpper, Option.getD_some]
    rw [if_neg fun h => hne h.1]
  · intro name low up v h
    cases up with
    | none =>
      simp only [mkVariable, defaultUpper] at h
      split_ifs at h with hc
      cases h
      exact ⟨hc.1, rfl⟩
    | some hi =>
      simp only [mkVariable, defaultUpper] at h
      split_ifs at h with hc
      cases h
      exact ⟨hc.1, by rw [hc.2]⟩
  · intro clientes res hres
    rw [prob1Vars, List.mem_map] at hres
    obtain ⟨i, -, rfl⟩ := hres
    exact ⟨_, mkVariable_binary_01 _, rfl, rfl⟩
  · intro res hres
    rw [prob6ZVars, List.mem_map] at hres
    obtain ⟨j, -, rfl⟩ := hres
    exact ⟨_, mkVariable_binary_default _, rfl, rfl⟩
  · intro res hres
    rw [prob6WVars, List.mem_flatten] at hres
    obtain ⟨l, hl, hres⟩ := hres
    rw [List.mem_map] at hl
    obtain ⟨i, -, rfl⟩ := hl
    rw [List.mem_map] at hres
    obtain ⟨j, -, rfl⟩ := hres
    exact ⟨_, mkVariable_binary_default _, rfl, rfl⟩

/-- Witness for claim C5 at a concrete invalid creation: a Binary
variable with explicit bounds 0 and 2 fails with `InvalidBounds`. -/
theorem C5_witness :
    mkVariable "x" VarKind.Binary (some 0) (some 2) =
      Except.error VarError.InvalidBounds :=
  C5_binary_bounds.1 "x" 0 2 (by norm_num)

/-- The coefficient mapping of a sum of two expressions is the pointwise
sum of the coefficient mappings. -/
theorem coeffOf_addExpr (a b : LinExpr) (v : String) :
    coeffOf (addExpr a b) v = coeffOf a v + coeffOf b v := by
  unfold coeffOf addExpr
  simp [List.filter_append]

/-- The zero expression has zero coefficients. -/
theorem coeffOf_zeroExpr (v : String) : coeffOf zeroExpr v = 0 := rfl

/-- Coefficients of a two-element `lpSum`. -/
theorem lpSum_pair_coeff (x y : LinExpr) (v : String) :
    coeffOf (lpSum [x, y]) v = coeffOf x v + coeffOf y v := by
  show coeffOf (addExpr (addExpr zeroExpr x) y) v = _
  rw [coeffOf_addExpr, coeffOf_addExpr, coeffOf_zeroExpr]
  ring

/-- Constant of a two-element `lpSum`. -/
theorem lpSum_pair_const (x y : LinExpr) :
    (lpSum [x, y]).const = x.const + y.const := by
  show (addExpr (addExpr zeroExpr x) y).const = _
  simp [addExpr, zeroExpr]

/-- Claim C7: for all linear expressions a, b, c, `sum([a,b])` equals
`sum([b,a])` and `sum([sum([a,b]),c])` equals `sum([a,sum([b,c])])`, where
equality is the normalized variable-to-coefficient mapping plus the
constant term. -/
theorem C7_lpSum_comm_assoc (a b c : LinExpr) :
    exprEquiv (lpSum [a, b]) (lpSum [b, a]) ∧
    exprEquiv (lpSum [lpSum [a, b], c]) (lpSum [a, lpSum [b, c]]) := by
  refine ⟨⟨?_, ?_⟩, ⟨?_, ?_⟩⟩
  · intro v
    rw [lpSum_pair_coeff, lpSum_pair_coeff]
    ring
  · rw [lpSum_pair_const, lpSum_pair_const]
    ring
  · intro v
    rw [lpSum_pair_coeff, lpSum_pair_coeff, lpSum_pair_coeff, lpSum_pair_coeff]
    ring
  · rw [lpSum_pair_const, lpSum_pair_const, lpSum_pair_const, lpSum_pair_const]
    ring

/-- Witness for claim C7 at two concrete expressions: their sums in either
order are equivalent. -/
theorem C7_witness : exprEquiv (lpSum [exprX, exprY]) (lpSum [exprY, exprX]) :=
  (C7_lpSum_comm_assoc exprX exprY exprX).1

/-- Claim C6, counterexample: the required field `sex` is absent from the
table, yet the run completes all six models with no failure at all — the
script performs no schema validation, so a missing required field does not
make it fail before any model is built. -/
theorem C6_counterexample :
    "sex" ∈ requiredFields ∧
    "sex" ∉ ["age", "bmi", "children", "smoker", "region", "charges"] ∧
    runScript ["age", "bmi", "children", "smoker", "region", "charges"] = (6, false) := by
  decide

/-- Claim C6, amended: the script validates nothing up front; a missing
column aborts the run only at its first access (a `KeyError`, not a
`DatasetSchemaError`): a missing `charges` aborts before any model; a
missing `bmi` aborts after scenario 1 completed; a missing `age` or
`smoker` aborts after scenario 2 completed; a missing `sex`, `children` or
`region` is never detected and all six scenarios complete, as they do on
the full schema. -/
theorem C6_schema_behavior :
    runScript ["age", "sex", "bmi", "children", "smoker", "region"] = (0, true) ∧
    runScript ["age", "sex", "children", "smoker", "region", "charges"] = (1, true) ∧
    runScript ["sex", "bmi", "children", "smoker", "region", "charges"] = (2, true) ∧
    runScript ["age", "sex", "bmi", "children", "region", "charges"] = (2, true) ∧
    runScript ["age", "bmi", "children", "smoker", "region", "charges"] = (6, false) ∧
    runScript ["age", "sex", "bmi", "smoker", "region", "charges"] = (6, false) ∧
    runScript ["age", "sex", "bmi", "children", "smoker", "charges"] = (6, false) ∧
    runScript requiredFields = (6, false) := by
  decide

end AnalisePrescritiva
